import Mathlib

/-!
Verification development for the sentiment-classification core of the
repository (file `backend/sentiment_analyzer.py`, class `SentimentAnalyzer`).

Shallow embedding conventions:
* The mutable fields of the Python object (`vectorizer`, `nb_model`,
  `lr_model`, `training_history`) become an explicit state record
  `AnalyzerState`; every method is a function from state (plus the inputs
  and an oracle for the external libraries) to state and a return value.
* Calls into external libraries (scikit-learn fitting/prediction, the
  OpenAI client, the file system) are modelled by oracle records
  (`MLEnv`, `InferEnv`, `FileSys`, `OpenAIOutcome`): the repository code
  is translated literally, the library calls are parameters.
* scikit-learn estimator objects are opaque first-order tokens that
  record provenance (`VectorizerObj`, `ModelObj`): a freshly constructed
  `TfidfVectorizer(...)` is `VectorizerObj.unfitted`, one whose
  `fit_transform` succeeded on a corpus is `VectorizerObj.fittedOn corpus`,
  a pickled artifact read back from disk is `VectorizerObj.loaded tag`.
* The metric functions `accuracy_score`, `precision_score`, `recall_score`,
  `f1_score` (with `average='weighted'`, `zero_division=0`) and
  `confusion_matrix` (default `labels=None`: the sorted set of labels that
  occur in `y_true` or `y_pred`) follow scikit-learn's documented
  semantics over `ℚ`.
* Python floats carrying probabilities/metrics are modelled as `ℚ`;
  `int(len(texts) * 0.8)` equals `4 * n / 5` in `ℕ` for every list length
  a process can hold, and is embedded as such.
-/

/-- Class index: 0 = Negative, 1 = Neutral, 2 = Positive. -/
abbrev ClassIdx := Fin 3

/-- `label_map = {-1: 0, 0: 1, 1: 2}` together with the lenient lookup
`label_map.get(l, 1)` of `train_models` (line 144): any other value maps
to Neutral. -/
def label_map (l : Int) : ClassIdx :=
  if l = -1 then 0 else if l = 0 then 1 else if l = 1 then 2 else 1

/-- `self.class_labels = ['Negative', 'Neutral', 'Positive']`. -/
def class_labels : List String := ["Negative", "Neutral", "Positive"]

/-- `label_reverse = {0: 'Negative', 1: 'Neutral', 2: 'Positive'}` of
`analyze_with_ml`. -/
def label_reverse (i : ClassIdx) : String :=
  if i = 0 then "Negative" else if i = 1 then "Neutral" else "Positive"

/-- Per-model metric block of `training_history` (`nb_metrics` /
`lr_metrics`). -/
structure Metrics where
  accuracy : ℚ
  precision : ℚ
  «recall» : ℚ
  f1_score : ℚ
deriving DecidableEq, Repr

/-- The `training_history` dict.  The empty initial dicts `{}` and the
initial `None` confusion matrices are `none`. -/
structure TrainingHistory where
  trained : Bool
  samples : ℕ
  nb_metrics : Option Metrics
  lr_metrics : Option Metrics
  cm_nb : Option (List (List ℕ))
  cm_lr : Option (List (List ℕ))
deriving DecidableEq, Repr

/-- Provenance token for the `TfidfVectorizer` object held in
`self.vectorizer`. -/
inductive VectorizerObj where
  | unfitted
  | fittedOn (corpus : List String)
  | loaded (tag : ℕ)
deriving DecidableEq, Repr

/-- Provenance token for a scikit-learn classifier held in
`self.nb_model` / `self.lr_model`: a freshly constructed estimator whose
`fit` has not (yet) succeeded, one fitted on a training partition, or a
pickled artifact read back from disk. -/
inductive ModelObj where
  | unfitted
  | trainedOn (train_texts : List String) (y_train : List ClassIdx)
  | loaded (tag : ℕ)
deriving DecidableEq, Repr

/-- The mutable fields of a `SentimentAnalyzer` instance. -/
structure AnalyzerState where
  vectorizer : Option VectorizerObj
  nb_model : Option ModelObj
  lr_model : Option ModelObj
  training_history : TrainingHistory
deriving DecidableEq, Repr

/-- `training_history` as initialised in `__init__`. -/
def initial_history : TrainingHistory :=
  { trained := false, samples := 0, nb_metrics := none, lr_metrics := none,
    cm_nb := none, cm_lr := none }

/-- The state right after `__init__` sets the fields (before
`_load_models` / auto-training run). -/
def initial_state : AnalyzerState :=
  { vectorizer := none, nb_model := none, lr_model := none,
    training_history := initial_history }

/-! ### scikit-learn metric functions (documented semantics, over ℚ) -/

/-- Occurrences of class `c` in a label list. -/
def countEq (l : List ClassIdx) (c : ClassIdx) : ℕ :=
  l.countP (fun x => decide (x = c))

/-- Occurrences of the pair `(c, d)` (true class `c`, predicted class `d`)
among aligned (true, predicted) pairs. -/
def countPair (l : List (ClassIdx × ClassIdx)) (c d : ClassIdx) : ℕ :=
  l.countP (fun p => decide (p.1 = c ∧ p.2 = d))

/-- The sorted list of class labels occurring in `y_true` or `y_pred` —
scikit-learn's default label set for `confusion_matrix` and for the
averaged precision/recall/F1 scores. -/
def unique_labels (y_true y_pred : List ClassIdx) : List ClassIdx :=
  (List.finRange 3).filter (fun c => decide (c ∈ y_true ∨ c ∈ y_pred))

/-- `sklearn.metrics.accuracy_score`: fraction of aligned positions that
agree. -/
def accuracy_score (y_true y_pred : List ClassIdx) : ℚ :=
  (((y_true.zip y_pred).countP (fun p => decide (p.1 = p.2)) : ℕ) : ℚ) /
    (y_true.length : ℚ)

/-- Per-class precision with `zero_division=0`. -/
def precision_c (y_true y_pred : List ClassIdx) (c : ClassIdx) : ℚ :=
  if countEq y_pred c = 0 then 0
  else ((countPair (y_true.zip y_pred) c c : ℕ) : ℚ) / (countEq y_pred c : ℚ)

/-- Per-class recall with `zero_division=0`. -/
def recall_c (y_true y_pred : List ClassIdx) (c : ClassIdx) : ℚ :=
  if countEq y_true c = 0 then 0
  else ((countPair (y_true.zip y_pred) c c : ℕ) : ℚ) / (countEq y_true c : ℚ)

/-- Per-class F1 with `zero_division=0`. -/
def f1_c (y_true y_pred : List ClassIdx) (c : ClassIdx) : ℚ :=
  if precision_c y_true y_pred c + recall_c y_true y_pred c = 0 then 0
  else 2 * precision_c y_true y_pred c * recall_c y_true y_pred c /
    (precision_c y_true y_pred c + recall_c y_true y_pred c)

/-- `average='weighted'`: support-weighted mean of a per-class metric over
the occurring labels. -/
def weighted_avg (y_true y_pred : List ClassIdx) (m : ClassIdx → ℚ) : ℚ :=
  (((unique_labels y_true y_pred).map
      (fun c => (countEq y_true c : ℚ) * m c)).sum) / (y_true.length : ℚ)

/-- `precision_score(..., average='weighted', zero_division=0)`. -/
def precision_score (y_true y_pred : List ClassIdx) : ℚ :=
  weighted_avg y_true y_pred (precision_c y_true y_pred)

/-- `recall_score(..., average='weighted', zero_division=0)`. -/
def recall_score (y_true y_pred : List ClassIdx) : ℚ :=
  weighted_avg y_true y_pred (recall_c y_true y_pred)

/-- `f1_score(..., average='weighted', zero_division=0)`. -/
def f1_score (y_true y_pred : List ClassIdx) : ℚ :=
  weighted_avg y_true y_pred (f1_c y_true y_pred)

/-- `sklearn.metrics.confusion_matrix` with default `labels=None`: a
square matrix over the labels occurring in `y_true` or `y_pred`, row =
true class, column = predicted class. -/
def confusion_matrix (y_true y_pred : List ClassIdx) : List (List ℕ) :=
  (unique_labels y_true y_pred).map (fun i =>
    (unique_labels y_true y_pred).map (fun j =>
      countPair (y_true.zip y_pred) i j))

/-- The metric dict built inline in `train_models` (lines 169–180) for one
classifier. -/
def compute_metrics (y_true y_pred : List ClassIdx) : Metrics :=
  { accuracy := accuracy_score y_true y_pred
    precision := precision_score y_true y_pred
    «recall» := recall_score y_true y_pred
    f1_score := f1_score y_true y_pred }

/-! ### Training (`train_models`, `_save_models`) -/

/-- Oracle for the scikit-learn calls inside `train_models` and for the
file system inside `_save_models`.
* `fitOk corpus` — whether `TfidfVectorizer(...).fit_transform(corpus)`
  succeeds (it raises `ValueError` when the raw vocabulary is empty or
  when `min_df=2` / `max_df=0.8` prune every term);
  `fitErr corpus` is the exception text in the failing case.
* `nbFitOk train_texts y_train` — whether
  `MultinomialNB(alpha=0.5).fit(X_train, y_train)` succeeds (it raises
  e.g. when `X_train` and `y_train` have inconsistent numbers of rows);
  `nbFitErr` is the exception text in the failing case.
* `lrFitOk train_texts y_train` — whether
  `LogisticRegression(...).fit(X_train, y_train)` succeeds (on top of the
  row-count condition it raises `ValueError` when `y_train` holds fewer
  than 2 distinct classes); `lrFitErr` is the exception text.
* `nbPredict` / `lrPredict` — the prediction of the classifier fitted on
  `(train_texts, y_train)` for one text.  Fitted classifiers only predict
  classes they saw, hence `ClassIdx`.
* `saveOk` — whether the pickle/JSON writes of `_save_models` succeed. -/
structure MLEnv where
  fitOk : List String → Bool
  fitErr : List String → String
  nbFitOk : List String → List ClassIdx → Bool
  nbFitErr : List String → List ClassIdx → String
  lrFitOk : List String → List ClassIdx → Bool
  lrFitErr : List String → List ClassIdx → String
  nbPredict : List String → List ClassIdx → String → ClassIdx
  lrPredict : List String → List ClassIdx → String → ClassIdx
  saveOk : Bool

/-- `_save_models` (lines 114–131): the whole body is inside
`try: ... except Exception as e: logger.error(...)`, so neither outcome
mutates the in-memory fields or raises. -/
def save_models (saveOk : Bool) (s : AnalyzerState) : AnalyzerState :=
  -- both branches of the Python try/except leave the object unchanged
  match saveOk with
  | true => s
  | false => s

/-- `train_models(texts, labels)` (lines 133–192), state-passing.
The `Except.error` value is the `{'error': ...}` dict.  The single
`except Exception` at lines 190–192 catches a raise from any statement of
the `try` block, so every fallible scikit-learn call is a separate branch
here, each returning the error dict with exactly the state mutated up to
that point: `fit_transform` (oracle `fitOk`), `MultinomialNB.fit` (oracle
`nbFitOk`, after `self.nb_model` was already replaced by the fresh
estimator), `LogisticRegression.fit` (oracle `lrFitOk`, likewise for
`self.lr_model`), and the metric computation, where
`accuracy_score(y_test, y_pred_nb)` deterministically raises iff the two
argument lengths differ.  `predict` on a freshly fitted classifier over
rows of the fitted matrix does not raise and stays total. -/
def train_models (env : MLEnv) (s : AnalyzerState) (texts : List String)
    (labels : List Int) : AnalyzerState × Except String TrainingHistory :=
  if texts.length < 10 then
    (s, Except.error "Need at least 10 samples to train")
  else
    -- converted_labels = np.array([label_map.get(l, 1) for l in labels])
    let converted_labels : List ClassIdx := labels.map label_map
    -- self.vectorizer = TfidfVectorizer(max_features=5000, ngram_range=(1, 2), min_df=2, max_df=0.8)
    let s₁ : AnalyzerState := { s with vectorizer := some VectorizerObj.unfitted }
    if env.fitOk texts then
      -- X = self.vectorizer.fit_transform(texts)
      let s₂ : AnalyzerState := { s₁ with vectorizer := some (VectorizerObj.fittedOn texts) }
      -- split_idx = int(len(texts) * 0.8)
      let split_idx : ℕ := texts.length * 4 / 5
      let train_texts := texts.take split_idx
      let test_texts := texts.drop split_idx
      let y_train := converted_labels.take split_idx
      let y_test := converted_labels.drop split_idx
      -- self.nb_model = MultinomialNB(alpha=0.5)
      let s₃ : AnalyzerState := { s₂ with nb_model := some ModelObj.unfitted }
      if env.nbFitOk train_texts y_train then
        -- self.nb_model.fit(X_train, y_train); y_pred_nb = self.nb_model.predict(X_test)
        let s₄ : AnalyzerState :=
          { s₃ with nb_model := some (ModelObj.trainedOn train_texts y_train) }
        let y_pred_nb := test_texts.map (env.nbPredict train_texts y_train)
        -- self.lr_model = LogisticRegression(max_iter=1000, random_state=42, class_weight='balanced')
        let s₅ : AnalyzerState := { s₄ with lr_model := some ModelObj.unfitted }
        if env.lrFitOk train_texts y_train then
          -- self.lr_model.fit(X_train, y_train); y_pred_lr = self.lr_model.predict(X_test)
          let s₆ : AnalyzerState :=
            { s₅ with lr_model := some (ModelObj.trainedOn train_texts y_train) }
          let y_pred_lr := test_texts.map (env.lrPredict train_texts y_train)
          -- accuracy_score(y_test, y_pred_nb) raises iff the lengths differ
          if y_test.length = y_pred_nb.length then
            let hist : TrainingHistory :=
              { trained := true
                samples := texts.length
                nb_metrics := some (compute_metrics y_test y_pred_nb)
                lr_metrics := some (compute_metrics y_test y_pred_lr)
                cm_nb := some (confusion_matrix y_test y_pred_nb)
                cm_lr := some (confusion_matrix y_test y_pred_lr) }
            let s₇ : AnalyzerState := { s₆ with training_history := hist }
            -- self._save_models(); return self.training_history
            (save_models env.saveOk s₇, Except.ok hist)
          else
            (s₆, Except.error
              "Found input variables with inconsistent numbers of samples")
        else
          (s₅, Except.error (env.lrFitErr train_texts y_train))
      else
        (s₃, Except.error (env.nbFitErr train_texts y_train))
    else
      -- except Exception as e: return {'error': str(e)}
      (s₁, Except.error (env.fitErr texts))

/-! ### Model loading (`_load_models`) -/

/-- File-system oracle for `_load_models`: existence of the `ml_models`
directory and of the four files in it, and the contents read back.  Under
the absence conditions of interest nothing is ever read, so the reads are
kept total. -/
structure FileSys where
  dirExists : Bool
  vecExists : Bool
  nbExists : Bool
  lrExists : Bool
  histExists : Bool
  vecTag : ℕ
  nbTag : ℕ
  lrTag : ℕ
  histFile : TrainingHistory

/-- `_load_models` (lines 87–112): loads the three pickles only when all
three exist, then overwrites `training_history` from the JSON file when
present, and finally forces `trained = True`. -/
def load_models (fs : FileSys) (s : AnalyzerState) : AnalyzerState :=
  if fs.dirExists then
    if fs.vecExists && fs.nbExists && fs.lrExists then
      let s₁ : AnalyzerState :=
        { s with vectorizer := some (VectorizerObj.loaded fs.vecTag)
                 nb_model := some (ModelObj.loaded fs.nbTag)
                 lr_model := some (ModelObj.loaded fs.lrTag) }
      let s₂ : AnalyzerState :=
        if fs.histExists then { s₁ with training_history := fs.histFile } else s₁
      { s₂ with training_history := { s₂.training_history with trained := true } }
    else s
  else s

/-! ### Inference (`analyze_with_openai`, `analyze_with_ml`, `analyze`) -/

/-- A structured sentiment verdict `{sentiment, confidence, explanation}`. -/
structure GptResult where
  sentiment : String
  confidence : ℚ
  explanation : String
deriving DecidableEq, Repr

/-- Outcome of the OpenAI chat-completion call inside
`analyze_with_openai`:
* `noClient` — `self.openai_client` is `None`;
* `exn msg` — the API call (or anything before the inner `try`) raised;
* `badJson` — the call returned but `json.loads` on the message content
  raised `JSONDecodeError`;
* `parsed r` — the content parsed to a structured verdict. -/
inductive OpenAIOutcome where
  | noClient
  | exn (msg : String)
  | badJson
  | parsed (r : GptResult)

/-- `analyze_with_openai` (lines 50–85): `none` models the `return None`
paths (no client / outer `except`); a `JSONDecodeError` is answered inside
the function with a Neutral verdict of confidence 0.5. -/
def analyze_with_openai (o : OpenAIOutcome) : Option GptResult :=
  match o with
  | OpenAIOutcome.noClient => none
  | OpenAIOutcome.exn _ => none
  | OpenAIOutcome.badJson =>
      some { sentiment := "Neutral", confidence := 1/2,
             explanation := "Could not parse response" }
  | OpenAIOutcome.parsed r => some r

/-- One classifier's entry in the `analyze_with_ml` result. -/
structure MLResult where
  sentiment : String
  confidence : ℚ
deriving DecidableEq, Repr

/-- Oracle for the scikit-learn calls inside `analyze_with_ml`'s `try`
block.  The `...Ok` flags say whether `transform` / `predict` /
`predict_proba` raise (e.g. `NotFittedError` on an unfitted vectorizer);
the values model the predictions of the stored objects. -/
structure InferEnv where
  transformOk : VectorizerObj → String → Bool
  nbOk : ModelObj → String → Bool
  lrOk : ModelObj → String → Bool
  nbPredict1 : ModelObj → String → ClassIdx
  nbProba : ModelObj → String → ℚ
  lrPredict1 : ModelObj → String → ClassIdx
  lrProba : ModelObj → String → ℚ

/-- `analyze_with_ml` (lines 194–222).  `none` is the empty dict `{}`;
`some (nb, lr)` is the dict with exactly the keys `naive_bayes` and
`logistic_regression`. -/
def analyze_with_ml (env : InferEnv) (s : AnalyzerState) (text : String) :
    Option (MLResult × MLResult) :=
  match s.vectorizer, s.nb_model, s.lr_model with
  | some v, some nb, some lr =>
      if env.transformOk v text && env.nbOk nb text && env.lrOk lr text then
        some ({ sentiment := label_reverse (env.nbPredict1 nb text)
                confidence := env.nbProba nb text },
              { sentiment := label_reverse (env.lrPredict1 lr text)
                confidence := env.lrProba lr text })
      else
        -- except Exception: return {}
        none
  | _, _, _ => none  -- if not self.vectorizer or not self.nb_model or not self.lr_model

/-- The `models` mapping of an analysis result; absent keys are `none`. -/
structure ModelsMap where
  pre_trained : Option GptResult
  naive_bayes : Option MLResult
  logistic_regression : Option MLResult
deriving DecidableEq, Repr

/-- The dict returned by `analyze`. -/
structure AnalysisResult where
  text : String
  timestamp : String
  models : ModelsMap
  training_status : Bool
deriving DecidableEq, Repr

/-- `analyze` (lines 254–280). -/
def analyze (oai : OpenAIOutcome) (env : InferEnv) (s : AnalyzerState)
    (text timestamp : String) : AnalysisResult :=
  let pre : GptResult :=
    match analyze_with_openai oai with
    | some r => r
    | none =>
        { sentiment := "Neutral", confidence := 0,
          explanation := "Error: Could not analyze sentiment" }
  let base : ModelsMap := { pre_trained := some pre, naive_bayes := none,
                            logistic_regression := none }
  let models : ModelsMap :=
    if s.training_history.trained then
      match analyze_with_ml env s text with
      | some (nbr, lrr) =>
          { base with naive_bayes := some nbr, logistic_regression := some lrr }
      | none => base
    else base
  { text := text, timestamp := timestamp, models := models,
    training_status := s.training_history.trained }

/-! ## Helper lemmas about the embedded scikit-learn metric functions -/

lemma sum_map_add {α : Type} (ls : List α) (f g : α → ℕ) :
    (ls.map (fun c => f c + g c)).sum = (ls.map f).sum + (ls.map g).sum := by
  induction ls with
  | nil => simp
  | cons a ls ih => simp [ih]; omega

lemma sum_if_not_mem {α : Type} [DecidableEq α] (ls : List α) (a : α) (h : a ∉ ls) :
    (ls.map (fun c => if a = c then (1 : ℕ) else 0)).sum = 0 := by
  induction ls with
  | nil => simp
  | cons b ls ih =>
    have hab : a ≠ b := fun hab => h (hab ▸ List.mem_cons_self b ls)
    simp only [List.map_cons, List.sum_cons, if_neg hab, Nat.zero_add]
    exact ih (fun hm => h (List.mem_cons_of_mem _ hm))

lemma sum_if_mem {α : Type} [DecidableEq α] (ls : List α) (a : α)
    (hnd : ls.Nodup) (ha : a ∈ ls) :
    (ls.map (fun c => if a = c then (1 : ℕ) else 0)).sum = 1 := by
  induction ls with
  | nil => simp at ha
  | cons b ls ih =>
    rcases List.nodup_cons.1 hnd with ⟨hb, hnd'⟩
    simp only [List.map_cons, List.sum_cons]
    rcases List.mem_cons.1 ha with rfl | ha'
    · rw [if_pos rfl, sum_if_not_mem ls a hb]
    · have hab : a ≠ b := fun hab => hb (hab ▸ ha')
      rw [if_neg hab, ih hnd' ha']

lemma countEq_cons (a : ClassIdx) (l : List ClassIdx) (c : ClassIdx) :
    countEq (a :: l) c = countEq l c + (if a = c then 1 else 0) := by
  simp [countEq, List.countP_cons]

/-- Counting every occurring class once covers the whole list: the
supports of the distinct classes of a label list sum to its length. -/
lemma sum_countEq_eq_length (ls : List ClassIdx) (hnd : ls.Nodup) :
    ∀ (yt : List ClassIdx), (∀ x ∈ yt, x ∈ ls) →
      (ls.map (fun c => countEq yt c)).sum = yt.length := by
  intro yt
  induction yt with
  | nil => intro _; simp [countEq]
  | cons a yt ih =>
    intro hyt
    have h1 : ∀ x ∈ yt, x ∈ ls := fun x hx => hyt x (List.mem_cons_of_mem _ hx)
    have ha : a ∈ ls := hyt a (List.mem_cons_self _ _)
    have hfun : (fun c => countEq (a :: yt) c)
        = fun c => countEq yt c + (if a = c then 1 else 0) := by
      funext c; exact countEq_cons a yt c
    rw [hfun, sum_map_add, ih h1, sum_if_mem ls a hnd ha, List.length_cons]

lemma countPair_cons (p : ClassIdx × ClassIdx) (l : List (ClassIdx × ClassIdx))
    (c d : ClassIdx) :
    countPair (p :: l) c d = countPair l c d + (if p.1 = c ∧ p.2 = d then 1 else 0) := by
  simp [countPair, List.countP_cons]

/-- True positives of class `d` never exceed the number of `d`-predictions. -/
lemma countPair_zip_le_right (yt yp : List ClassIdx) (c d : ClassIdx) :
    countPair (yt.zip yp) c d ≤ countEq yp d := by
  induction yt generalizing yp with
  | nil => simp [countPair]
  | cons a yt ih =>
    cases yp with
    | nil => simp [countPair]
    | cons b yp =>
      rw [List.zip_cons_cons, countPair_cons, countEq_cons]
      have h := ih yp
      by_cases hbd : b = d
      · by_cases hac : a = c
        · simp only [hac, hbd, and_self, if_pos rfl, if_true]; omega
        · have : ¬(a = c ∧ b = d) := fun hh => hac hh.1
          simp only [this, if_false, if_pos hbd]; omega
      · have : ¬(a = c ∧ b = d) := fun hh => hbd hh.2
        simp only [this, if_false, if_neg hbd]; omega

/-- True positives of class `c` never exceed the support of `c`. -/
lemma countPair_zip_le_left (yt yp : List ClassIdx) (c d : ClassIdx) :
    countPair (yt.zip yp) c d ≤ countEq yt c := by
  induction yt generalizing yp with
  | nil => simp [countPair, countEq]
  | cons a yt ih =>
    cases yp with
    | nil => simp [countPair, countEq]
    | cons b yp =>
      rw [List.zip_cons_cons, countPair_cons, countEq_cons]
      have h := ih yp
      by_cases hac : a = c
      · by_cases hbd : b = d
        · simp only [hac, hbd, and_self, if_pos rfl, if_true]; omega
        · have : ¬(a = c ∧ b = d) := fun hh => hbd hh.2
          simp only [this, if_false, if_pos hac]; omega
      · have : ¬(a = c ∧ b = d) := fun hh => hac hh.1
        simp only [this, if_false, if_neg hac]; omega

lemma precision_c_unit (yt yp : List ClassIdx) (c : ClassIdx) :
    0 ≤ precision_c yt yp c ∧ precision_c yt yp c ≤ 1 := by
  unfold precision_c
  split
  · exact ⟨le_refl 0, zero_le_one⟩
  · constructor
    · positivity
    · apply div_le_one_of_le₀ _ (by positivity)
      exact_mod_cast countPair_zip_le_right yt yp c c

lemma recall_c_unit (yt yp : List ClassIdx) (c : ClassIdx) :
    0 ≤ recall_c yt yp c ∧ recall_c yt yp c ≤ 1 := by
  unfold recall_c
  split
  · exact ⟨le_refl 0, zero_le_one⟩
  · constructor
    · positivity
    · apply div_le_one_of_le₀ _ (by positivity)
      exact_mod_cast countPair_zip_le_left yt yp c c

lemma f1_c_unit (yt yp : List ClassIdx) (c : ClassIdx) :
    0 ≤ f1_c yt yp c ∧ f1_c yt yp c ≤ 1 := by
  obtain ⟨hp0, hp1⟩ := precision_c_unit yt yp c
  obtain ⟨hr0, hr1⟩ := recall_c_unit yt yp c
  unfold f1_c
  split
  · exact ⟨le_refl 0, zero_le_one⟩
  · rename_i h
    have hpr : 0 < precision_c yt yp c + recall_c yt yp c :=
      lt_of_le_of_ne (by positivity) (Ne.symm h)
    constructor
    · positivity
    · rw [div_le_one hpr]; nlinarith

lemma accuracy_score_unit (yt yp : List ClassIdx) :
    0 ≤ accuracy_score yt yp ∧ accuracy_score yt yp ≤ 1 := by
  unfold accuracy_score
  constructor
  · positivity
  · apply div_le_one_of_le₀ _ (by positivity)
    have h1 : (yt.zip yp).countP (fun p => decide (p.1 = p.2)) ≤ (yt.zip yp).length :=
      List.countP_le_length _
    have h2 : (yt.zip yp).length ≤ yt.length := by
      rw [List.length_zip]; exact Nat.min_le_left _ _
    exact_mod_cast le_trans h1 h2

lemma mem_unique_labels_left {yt yp : List ClassIdx} {x : ClassIdx} (hx : x ∈ yt) :
    x ∈ unique_labels yt yp := by
  refine List.mem_filter.2 ⟨List.mem_finRange x, ?_⟩
  exact decide_eq_true (Or.inl hx)

lemma mem_unique_labels_right {yt yp : List ClassIdx} {x : ClassIdx} (hx : x ∈ yp) :
    x ∈ unique_labels yt yp := by
  refine List.mem_filter.2 ⟨List.mem_finRange x, ?_⟩
  exact decide_eq_true (Or.inr hx)

lemma unique_labels_nodup (yt yp : List ClassIdx) : (unique_labels yt yp).Nodup :=
  (List.nodup_finRange 3).filter _

lemma unique_labels_length_le (yt yp : List ClassIdx) :
    (unique_labels yt yp).length ≤ 3 := by
  have h := List.length_filter_le (fun c => decide (c ∈ yt ∨ c ∈ yp)) (List.finRange 3)
  unfold unique_labels
  exact le_trans h (by simp)

lemma weighted_avg_unit (yt yp : List ClassIdx) (m : ClassIdx → ℚ)
    (hm : ∀ c, 0 ≤ m c ∧ m c ≤ 1) :
    0 ≤ weighted_avg yt yp m ∧ weighted_avg yt yp m ≤ 1 := by
  have hnum0 : 0 ≤ ((unique_labels yt yp).map (fun c => (countEq yt c : ℚ) * m c)).sum := by
    apply List.sum_nonneg
    intro x hx
    obtain ⟨c, _, rfl⟩ := List.mem_map.1 hx
    exact mul_nonneg (by positivity) (hm c).1
  have hnum1 : ((unique_labels yt yp).map (fun c => (countEq yt c : ℚ) * m c)).sum
      ≤ (yt.length : ℚ) := by
    have step1 : ((unique_labels yt yp).map (fun c => (countEq yt c : ℚ) * m c)).sum
        ≤ ((unique_labels yt yp).map (fun c => (countEq yt c : ℚ))).sum := by
      apply List.sum_le_sum
      intro c _
      calc (countEq yt c : ℚ) * m c ≤ (countEq yt c : ℚ) * 1 :=
            mul_le_mul_of_nonneg_left (hm c).2 (by positivity)
        _ = (countEq yt c : ℚ) := mul_one _
    have step2 : ((unique_labels yt yp).map (fun c => (countEq yt c : ℚ))).sum
        = (yt.length : ℚ) := by
      have hcast : ((unique_labels yt yp).map (fun c => (countEq yt c : ℚ))).sum
          = ((((unique_labels yt yp).map (fun c => countEq yt c)).sum : ℕ) : ℚ) := by
        rw [Nat.cast_list_sum, List.map_map]; rfl
      rw [hcast, sum_countEq_eq_length (unique_labels yt yp) (unique_labels_nodup yt yp)
            yt (fun x hx => mem_unique_labels_left hx)]
    exact step1.trans (le_of_eq step2)
  unfold weighted_avg
  exact ⟨div_nonneg hnum0 (by positivity), div_le_one_of_le₀ hnum1 (by positivity)⟩

lemma sum_if_pair (ls : List ClassIdx) (hnd : ls.Nodup) (a b : ClassIdx)
    (hb : b ∈ ls) (i : ClassIdx) :
    (ls.map (fun j => if a = i ∧ b = j then (1 : ℕ) else 0)).sum
      = if a = i then 1 else 0 := by
  by_cases hai : a = i
  · rw [if_pos hai]
    have hfun : (fun j => if a = i ∧ b = j then (1 : ℕ) else 0)
        = fun j => if b = j then (1 : ℕ) else 0 := by
      funext j
      by_cases hbj : b = j
      · rw [if_pos ⟨hai, hbj⟩, if_pos hbj]
      · rw [if_neg (fun hh => hbj hh.2), if_neg hbj]
    rw [hfun, sum_if_mem ls b hnd hb]
  · rw [if_neg hai]
    have hfun : (fun j => if a = i ∧ b = j then (1 : ℕ) else 0)
        = fun _ => (0 : ℕ) := by
      funext j
      exact if_neg (fun hh => hai hh.1)
    rw [hfun]
    simp

/-- Every aligned (true, predicted) pair lands in exactly one cell, so the
confusion-matrix cells over the occurring labels sum to the number of
evaluated samples. -/
lemma sum_sum_countPair (ls : List ClassIdx) (hnd : ls.Nodup) :
    ∀ (l : List (ClassIdx × ClassIdx)),
      (∀ p ∈ l, p.1 ∈ ls) → (∀ p ∈ l, p.2 ∈ ls) →
      (ls.map (fun i => (ls.map (fun j => countPair l i j)).sum)).sum = l.length := by
  intro l
  induction l with
  | nil => intro _ _; simp [countPair]
  | cons p l ih =>
    intro h1 h2
    have h1' : ∀ q ∈ l, q.1 ∈ ls := fun q hq => h1 q (List.mem_cons_of_mem _ hq)
    have h2' : ∀ q ∈ l, q.2 ∈ ls := fun q hq => h2 q (List.mem_cons_of_mem _ hq)
    have hp1 : p.1 ∈ ls := h1 p (List.mem_cons_self _ _)
    have hp2 : p.2 ∈ ls := h2 p (List.mem_cons_self _ _)
    have hinner : ∀ i : ClassIdx,
        (ls.map (fun j => countPair (p :: l) i j)).sum
          = (ls.map (fun j => countPair l i j)).sum + (if p.1 = i then 1 else 0) := by
      intro i
      have hfun : (fun j => countPair (p :: l) i j)
          = fun j => countPair l i j + (if p.1 = i ∧ p.2 = j then 1 else 0) := by
        funext j; exact countPair_cons p l i j
      rw [hfun, sum_map_add, sum_if_pair ls hnd p.1 p.2 hp2 i]
    have houter : (ls.map (fun i => (ls.map (fun j => countPair (p :: l) i j)).sum))
        = ls.map (fun i =>
            (ls.map (fun j => countPair l i j)).sum + (if p.1 = i then 1 else 0)) := by
      exact List.map_congr_left (fun i _ => hinner i)
    rw [houter, sum_map_add, ih h1' h2', sum_if_mem ls p.1 hnd hp1, List.length_cons]

lemma confusion_matrix_length (yt yp : List ClassIdx) :
    (confusion_matrix yt yp).length = (unique_labels yt yp).length := by
  unfold confusion_matrix; rw [List.length_map]

lemma confusion_matrix_rows (yt yp : List ClassIdx) :
    ∀ row ∈ confusion_matrix yt yp, row.length = (confusion_matrix yt yp).length := by
  intro row hrow
  obtain ⟨i, _, rfl⟩ := List.mem_map.1 hrow
  rw [List.length_map, confusion_matrix_length]

lemma confusion_matrix_total (yt yp : List ClassIdx) :
    ((confusion_matrix yt yp).map List.sum).sum = (yt.zip yp).length := by
  unfold confusion_matrix
  rw [List.map_map]
  exact sum_sum_countPair (unique_labels yt yp) (unique_labels_nodup yt yp) (yt.zip yp)
    (fun p hp => mem_unique_labels_left (List.of_mem_zip hp).1)
    (fun p hp => mem_unique_labels_right (List.of_mem_zip hp).2)

/-- Every reported metric lies in the unit interval `[0, 1]`. -/
def MetricsInRange (m : Metrics) : Prop :=
  0 ≤ m.accuracy ∧ m.accuracy ≤ 1 ∧ 0 ≤ m.precision ∧ m.precision ≤ 1 ∧
  0 ≤ m.«recall» ∧ m.«recall» ≤ 1 ∧ 0 ≤ m.f1_score ∧ m.f1_score ≤ 1

/-- A confusion matrix is square with side at most 3 (its entries are
nonnegative integers by their type `ℕ`) and its entries sum to `total`. -/
def SquareCM (c : List (List ℕ)) (total : ℕ) : Prop :=
  c.length ≤ 3 ∧ (∀ row ∈ c, row.length = c.length) ∧ (c.map List.sum).sum = total

lemma compute_metrics_in_range (yt yp : List ClassIdx) :
    MetricsInRange (compute_metrics yt yp) := by
  obtain ⟨ha0, ha1⟩ := accuracy_score_unit yt yp
  obtain ⟨hp0, hp1⟩ := weighted_avg_unit yt yp (precision_c yt yp) (precision_c_unit yt yp)
  obtain ⟨hr0, hr1⟩ := weighted_avg_unit yt yp (recall_c yt yp) (recall_c_unit yt yp)
  obtain ⟨hf0, hf1⟩ := weighted_avg_unit yt yp (f1_c yt yp) (f1_c_unit yt yp)
  exact ⟨ha0, ha1, hp0, hp1, hr0, hr1, hf0, hf1⟩

lemma confusion_matrix_square (yt yp : List ClassIdx) :
    SquareCM (confusion_matrix yt yp) (yt.zip yp).length := by
  refine ⟨?_, confusion_matrix_rows yt yp, confusion_matrix_total yt yp⟩
  rw [confusion_matrix_length]
  exact unique_labels_length_le yt yp

lemma save_models_id (b : Bool) (s : AnalyzerState) : save_models b s = s := by
  cases b <;> rfl

/-- `analyze` always stores a `pre_trained` entry: the parsed verdict, or
the 0.5-confidence parse fallback, or the 0.0-confidence error fallback;
the ML branch never touches this key. -/
lemma analyze_pre_trained_eq (oai : OpenAIOutcome) (env : InferEnv)
    (s : AnalyzerState) (text ts : String) :
    (analyze oai env s text ts).models.pre_trained =
      some (match analyze_with_openai oai with
            | some r => r
            | none => { sentiment := "Neutral", confidence := 0,
                        explanation := "Error: Could not analyze sentiment" }) := by
  unfold analyze
  cases h : s.training_history.trained
  · simp [h]
  · simp only [h, if_true]
    cases hml : analyze_with_ml env s text with
    | none => simp
    | some pr => cases pr; simp

/-- Success-path anatomy of `train_models`: whenever a run returns a
history (so every guard of the `try` block passed, including the
metric-length check), the history is built from the positional 80/20
partitions and the final state holds the newly fitted vectorizer and the
two newly trained classifiers together with that history. -/
lemma train_models_ok_spec (env : MLEnv) (s : AnalyzerState)
    (texts : List String) (labels : List Int) (hist : TrainingHistory)
    (hok : (train_models env s texts labels).2 = Except.ok hist) :
    ((labels.map label_map).drop (texts.length * 4 / 5)).length =
      ((texts.drop (texts.length * 4 / 5)).map
        (env.nbPredict (texts.take (texts.length * 4 / 5))
          ((labels.map label_map).take (texts.length * 4 / 5)))).length ∧
    hist.trained = true ∧
    hist.samples = texts.length ∧
    hist.nb_metrics = some (compute_metrics
      ((labels.map label_map).drop (texts.length * 4 / 5))
      ((texts.drop (texts.length * 4 / 5)).map
        (env.nbPredict (texts.take (texts.length * 4 / 5))
          ((labels.map label_map).take (texts.length * 4 / 5))))) ∧
    hist.lr_metrics = some (compute_metrics
      ((labels.map label_map).drop (texts.length * 4 / 5))
      ((texts.drop (texts.length * 4 / 5)).map
        (env.lrPredict (texts.take (texts.length * 4 / 5))
          ((labels.map label_map).take (texts.length * 4 / 5))))) ∧
    hist.cm_nb = some (confusion_matrix
      ((labels.map label_map).drop (texts.length * 4 / 5))
      ((texts.drop (texts.length * 4 / 5)).map
        (env.nbPredict (texts.take (texts.length * 4 / 5))
          ((labels.map label_map).take (texts.length * 4 / 5))))) ∧
    hist.cm_lr = some (confusion_matrix
      ((labels.map label_map).drop (texts.length * 4 / 5))
      ((texts.drop (texts.length * 4 / 5)).map
        (env.lrPredict (texts.take (texts.length * 4 / 5))
          ((labels.map label_map).take (texts.length * 4 / 5))))) ∧
    (train_models env s texts labels).1.vectorizer =
      some (VectorizerObj.fittedOn texts) ∧
    (train_models env s texts labels).1.nb_model =
      some (ModelObj.trainedOn (texts.take (texts.length * 4 / 5))
        ((labels.map label_map).take (texts.length * 4 / 5))) ∧
    (train_models env s texts labels).1.lr_model =
      some (ModelObj.trainedOn (texts.take (texts.length * 4 / 5))
        ((labels.map label_map).take (texts.length * 4 / 5))) ∧
    (train_models env s texts labels).1.training_history = hist := by
  unfold train_models at hok ⊢
  by_cases h10 : texts.length < 10
  · rw [if_pos h10] at hok
    exact absurd hok (by simp)
  · simp only [if_neg h10] at hok ⊢
    by_cases hfit : env.fitOk texts = true
    · simp only [hfit, if_true] at hok ⊢
      by_cases hnb : env.nbFitOk (texts.take (texts.length * 4 / 5))
          ((labels.map label_map).take (texts.length * 4 / 5)) = true
      · simp only [hnb, if_true] at hok ⊢
        by_cases hlr : env.lrFitOk (texts.take (texts.length * 4 / 5))
            ((labels.map label_map).take (texts.length * 4 / 5)) = true
        · simp only [hlr, if_true] at hok ⊢
          by_cases hmet : ((labels.map label_map).drop (texts.length * 4 / 5)).length =
              ((texts.drop (texts.length * 4 / 5)).map
                (env.nbPredict (texts.take (texts.length * 4 / 5))
                  ((labels.map label_map).take (texts.length * 4 / 5)))).length
          · rw [if_pos hmet] at hok ⊢
            simp only [save_models_id] at hok ⊢
            have hhist := Except.ok.inj hok
            subst hhist
            refine ⟨hmet, ?_, ?_, ?_, ?_, ?_, ?_, ?_, ?_, ?_, ?_⟩ <;> trivial
          · rw [if_neg hmet] at hok
            exact absurd hok (by simp)
        · rw [if_neg hlr] at hok
          exact absurd hok (by simp)
      · rw [if_neg hnb] at hok
        exact absurd hok (by simp)
    · simp only [hfit] at hok
      simp at hok

/-! ## Concrete instances used by witnesses and counterexamples -/

/-- Oracle for the concrete run on `texts10`/`labels10`.  The classifier
fits succeed exactly under scikit-learn's own conditions (consistent row
counts; at least two distinct classes for `LogisticRegression`), and both
classifiers predict class 0 on the negative-template text and class 2
otherwise — what estimators fitted on the cleanly separated `texts10`
training slice do. -/
def envC2 : MLEnv :=
  { fitOk := fun _ => true
    fitErr := fun _ => ""
    nbFitOk := fun tr y => decide (tr.length = y.length)
    nbFitErr := fun _ _ => ""
    lrFitOk := fun tr y => decide (tr.length = y.length ∧ 2 ≤ y.dedup.length)
    lrFitErr := fun _ _ => ""
    nbPredict := fun _ _ t => if t = "bad service terrible" then 0 else 2
    lrPredict := fun _ _ t => if t = "bad service terrible" then 0 else 2
    saveOk := true }

/-- Ten samples with a realizable vocabulary: "good", "great", "bad" and
"terrible" each occur in 5 of the 10 documents (within `min_df=2` and
`max_df=0.8`; only the ubiquitous "service" is pruned), the first 8
(training) samples hold both classes, and the 2 held-out samples repeat
the two templates. -/
def texts10 : List String :=
  ["good service great", "good service great", "good service great",
   "good service great", "bad service terrible", "bad service terrible",
   "bad service terrible", "bad service terrible", "good service great",
   "bad service terrible"]

def labels10 : List Int := [1, 1, 1, 1, -1, -1, -1, -1, 1, -1]

/-- The training history produced by the successful run of `envC2` on
`texts10`/`labels10`. -/
def histC2 : TrainingHistory :=
  match (train_models envC2 initial_state texts10 labels10).2 with
  | Except.ok h => h
  | Except.error _ => initial_history

/-- Inference oracle where no scikit-learn call raises. -/
def inferEnv0 : InferEnv :=
  { transformOk := fun _ _ => true
    nbOk := fun _ _ => true
    lrOk := fun _ _ => true
    nbPredict1 := fun _ _ => 1
    nbProba := fun _ _ => 1
    lrPredict1 := fun _ _ => 1
    lrProba := fun _ _ => 1 }

/-- Oracle whose `fit_transform` raises — at ten pairwise-distinct
one-word texts every term has document frequency 1, `min_df=2` prunes
them all, and `TfidfVectorizer` raises `ValueError` with this message. -/
def envFitFail : MLEnv :=
  { fitOk := fun _ => false
    fitErr := fun _ =>
      "After pruning, no terms remain. Try a lower min_df or a higher max_df."
    nbFitOk := fun tr y => decide (tr.length = y.length)
    nbFitErr := fun _ _ => ""
    lrFitOk := fun tr y => decide (tr.length = y.length ∧ 2 ≤ y.dedup.length)
    lrFitErr := fun _ _ => ""
    nbPredict := fun _ _ _ => 1
    lrPredict := fun _ _ _ => 1
    saveOk := true }

def texts10d : List String :=
  ["t0", "t1", "t2", "t3", "t4", "t5", "t6", "t7", "t8", "t9"]

def labels10d : List Int := [1, -1, 0, 1, -1, 0, 1, -1, 0, 1]

/-- A file system whose `ml_models` directory is absent. -/
def fsNoDir : FileSys :=
  { dirExists := false, vecExists := true, nbExists := true, lrExists := true,
    histExists := true, vecTag := 0, nbTag := 0, lrTag := 0,
    histFile := initial_history }

/-! ## C1 -/

/-- Claim C1, counterexample: when the external call succeeds but its body
is not parseable JSON, `analyze` stores `{Neutral, 0.5, "Could not parse
response"}` as `models.pre_trained` — confidence 0.5, not the claimed
fixed fallback with confidence 0.0. -/
theorem C1_counterexample :
    (analyze OpenAIOutcome.badJson inferEnv0 initial_state "great" "ts").models.pre_trained =
      some { sentiment := "Neutral", confidence := 1/2,
             explanation := "Could not parse response" } ∧
    ¬ ((1 : ℚ)/2 = 0) := by
  constructor
  · rw [analyze_pre_trained_eq]; rfl
  · norm_num

/-- Claim C1 (amended): `analyze` always returns a result with a
`pre_trained` entry; when the external-service call fails (no client, or
the request raised) the entry is the fixed fallback
`{Neutral, 0.0, "Error: Could not analyze sentiment"}`; when the call
succeeds but its structured response cannot be parsed the entry is
`{Neutral, 0.5, "Could not parse response"}`. Neither path raises. -/
theorem C1_pre_trained_fallbacks (oai : OpenAIOutcome) (env : InferEnv)
    (s : AnalyzerState) (text ts : String) :
    ((analyze oai env s text ts).models.pre_trained).isSome = true ∧
    (analyze_with_openai oai = none →
      (analyze oai env s text ts).models.pre_trained =
        some { sentiment := "Neutral", confidence := 0,
               explanation := "Error: Could not analyze sentiment" }) ∧
    (oai = OpenAIOutcome.badJson →
      (analyze oai env s text ts).models.pre_trained =
        some { sentiment := "Neutral", confidence := 1/2,
               explanation := "Could not parse response" }) := by
  refine ⟨?_, ?_, ?_⟩
  · rw [analyze_pre_trained_eq]; rfl
  · intro h; rw [analyze_pre_trained_eq, h]
  · intro h; subst h; rw [analyze_pre_trained_eq]; rfl

/-- Witness for C1: a concrete failed call (client absent) yields the
0.0-confidence fallback entry. -/
theorem C1_pre_trained_fallbacks_witness :
    (analyze OpenAIOutcome.noClient inferEnv0 initial_state "great" "ts").models.pre_trained =
      some { sentiment := "Neutral", confidence := 0,
             explanation := "Error: Could not analyze sentiment" } :=
  (C1_pre_trained_fallbacks OpenAIOutcome.noClient inferEnv0 initial_state "great" "ts").2.1 rfl

/-! ## C2 -/

/-- Claim C2, counterexample: a successful `train_models` run whose
held-out labels and predictions involve only two of the three classes
produces a 2×2 confusion matrix, not the claimed "exactly 3×3". -/
theorem C2_counterexample :
    ((train_models envC2 initial_state texts10 labels10).2.toOption.map
        TrainingHistory.trained) = some true ∧
    ((train_models envC2 initial_state texts10 labels10).2.toOption.map
        TrainingHistory.cm_nb) = some (some [[1, 0], [0, 1]]) ∧
    ((train_models envC2 initial_state texts10 labels10).2.toOption.map
        TrainingHistory.cm_lr) = some (some [[1, 0], [0, 1]]) ∧
    ([[1, 0], [0, 1]] : List (List ℕ)).length ≠ 3 := by
  refine ⟨by decide, by decide, by decide, by decide⟩

/-- Claim C2 (amended): on every successful `train_models` run, all eight
reported metrics lie in `[0, 1]`, and each confusion matrix is square of
side exactly the number of distinct classes occurring among the held-out
labels and that classifier's predictions (hence at most 3, and 3×3
exactly when all three classes occur), with nonnegative integer entries
summing to the number of held-out samples
`len(texts) - int(len(texts) * 0.8)`. -/
theorem C2_metrics_in_range_cm_square (env : MLEnv) (s : AnalyzerState)
    (texts : List String) (labels : List Int) (hist : TrainingHistory)
    (hok : (train_models env s texts labels).2 = Except.ok hist) :
    (∃ m, hist.nb_metrics = some m ∧ MetricsInRange m) ∧
    (∃ m, hist.lr_metrics = some m ∧ MetricsInRange m) ∧
    (∃ c, hist.cm_nb = some c ∧
      c.length = (unique_labels
        ((labels.map label_map).drop (texts.length * 4 / 5))
        ((texts.drop (texts.length * 4 / 5)).map
          (env.nbPredict (texts.take (texts.length * 4 / 5))
            ((labels.map label_map).take (texts.length * 4 / 5))))).length ∧
      SquareCM c (texts.length - texts.length * 4 / 5)) ∧
    (∃ c, hist.cm_lr = some c ∧
      c.length = (unique_labels
        ((labels.map label_map).drop (texts.length * 4 / 5))
        ((texts.drop (texts.length * 4 / 5)).map
          (env.lrPredict (texts.take (texts.length * 4 / 5))
            ((labels.map label_map).take (texts.length * 4 / 5))))).length ∧
      SquareCM c (texts.length - texts.length * 4 / 5)) := by
  obtain ⟨hmet, htr, hsam, hnbm, hlrm, hcmnb, hcmlr, hv, hnb, hlr, hth⟩ :=
    train_models_ok_spec env s texts labels hist hok
  have hmet2 : ((labels.map label_map).drop (texts.length * 4 / 5)).length =
      ((texts.drop (texts.length * 4 / 5)).map
        (env.lrPredict (texts.take (texts.length * 4 / 5))
          ((labels.map label_map).take (texts.length * 4 / 5)))).length := by
    rw [List.length_map] at hmet ⊢
    exact hmet
  have hzipnb : (((labels.map label_map).drop (texts.length * 4 / 5)).zip
      ((texts.drop (texts.length * 4 / 5)).map
        (env.nbPredict (texts.take (texts.length * 4 / 5))
          ((labels.map label_map).take (texts.length * 4 / 5))))).length =
      texts.length - texts.length * 4 / 5 := by
    rw [List.length_zip, hmet, Nat.min_self, List.length_map, List.length_drop]
  have hziplr : (((labels.map label_map).drop (texts.length * 4 / 5)).zip
      ((texts.drop (texts.length * 4 / 5)).map
        (env.lrPredict (texts.take (texts.length * 4 / 5))
          ((labels.map label_map).take (texts.length * 4 / 5))))).length =
      texts.length - texts.length * 4 / 5 := by
    rw [List.length_zip, hmet2, Nat.min_self, List.length_map, List.length_drop]
  exact ⟨⟨_, hnbm, compute_metrics_in_range _ _⟩,
         ⟨_, hlrm, compute_metrics_in_range _ _⟩,
         ⟨_, hcmnb, confusion_matrix_length _ _, hzipnb ▸ confusion_matrix_square _ _⟩,
         ⟨_, hcmlr, confusion_matrix_length _ _, hziplr ▸ confusion_matrix_square _ _⟩⟩
/-- Witness for C2 at a concrete successful run. -/
theorem C2_metrics_in_range_cm_square_witness :
    (∃ m, histC2.nb_metrics = some m ∧ MetricsInRange m) ∧
    (∃ m, histC2.lr_metrics = some m ∧ MetricsInRange m) ∧
    (∃ c, histC2.cm_nb = some c ∧
      c.length = (unique_labels
        ((labels10.map label_map).drop (texts10.length * 4 / 5))
        ((texts10.drop (texts10.length * 4 / 5)).map
          (envC2.nbPredict (texts10.take (texts10.length * 4 / 5))
            ((labels10.map label_map).take (texts10.length * 4 / 5))))).length ∧
      SquareCM c (texts10.length - texts10.length * 4 / 5)) ∧
    (∃ c, histC2.cm_lr = some c ∧
      c.length = (unique_labels
        ((labels10.map label_map).drop (texts10.length * 4 / 5))
        ((texts10.drop (texts10.length * 4 / 5)).map
          (envC2.lrPredict (texts10.take (texts10.length * 4 / 5))
            ((labels10.map label_map).take (texts10.length * 4 / 5))))).length ∧
      SquareCM c (texts10.length - texts10.length * 4 / 5)) :=
  C2_metrics_in_range_cm_square envC2 initial_state texts10 labels10 histC2 rfl

/-! ## C3 -/

/-- Claim C3: `train_models` on fewer than 10 samples returns the error
dict `{'error': 'Need at least 10 samples to train'}` and leaves the whole
state — vectorizer, both classifiers and `training_history` — untouched. -/
theorem C3_insufficient_data_no_mutation (env : MLEnv) (s : AnalyzerState)
    (texts : List String) (labels : List Int) (h : texts.length < 10) :
    train_models env s texts labels =
      (s, Except.error "Need at least 10 samples to train") := by
  unfold train_models
  rw [if_pos h]

/-- Witness for C3 at a concrete one-sample call. -/
theorem C3_insufficient_data_no_mutation_witness :
    train_models envC2 initial_state ["short"] [1] =
      (initial_state, Except.error "Need at least 10 samples to train") :=
  C3_insufficient_data_no_mutation envC2 initial_state ["short"] [1] (by decide)

/-! ## C4 -/

/-- Claim C4: the label conversion of `train_models` maps −1 to index 0
(Negative), 0 to index 1 (Neutral) and 1 to index 2 (Positive) — a
bijection between `{-1, 0, 1}` and `{0, 1, 2}` since the three images are
pairwise distinct — and every other integer to index 1 (Neutral). -/
theorem C4_label_map_spec :
    label_map (-1) = 0 ∧ label_map 0 = 1 ∧ label_map 1 = 2 ∧
    (∀ l : Int, l ≠ -1 → l ≠ 0 → l ≠ 1 → label_map l = 1) := by
  refine ⟨rfl, rfl, rfl, ?_⟩
  intro l h1 h2 h3
  unfold label_map
  rw [if_neg h1, if_neg h2, if_neg h3]

/-- Witness for C4 at the unmapped value 7. -/
theorem C4_label_map_spec_witness : label_map 7 = 1 :=
  C4_label_map_spec.2.2.2 7 (by decide) (by decide) (by decide)

/-! ## C5 -/

/-- Claim C5: `train_models` splits the samples by position only — on
every run that trains (returns a history), both classifiers were fitted
on exactly the first `int(len(texts) * 0.8)` samples in input order, the
held-out evaluation (here: the stored confusion matrix) used exactly the
remaining samples in input order, and the two partitions reassemble the
input list unchanged (no shuffling or reordering). -/
theorem C5_positional_split (env : MLEnv) (s : AnalyzerState)
    (texts : List String) (labels : List Int) (hist : TrainingHistory)
    (hok : (train_models env s texts labels).2 = Except.ok hist) :
    (train_models env s texts labels).1.nb_model =
      some (ModelObj.trainedOn (texts.take (texts.length * 4 / 5))
        ((labels.map label_map).take (texts.length * 4 / 5))) ∧
    (train_models env s texts labels).1.lr_model =
      some (ModelObj.trainedOn (texts.take (texts.length * 4 / 5))
        ((labels.map label_map).take (texts.length * 4 / 5))) ∧
    hist.cm_nb =
      some (confusion_matrix ((labels.map label_map).drop (texts.length * 4 / 5))
        ((texts.drop (texts.length * 4 / 5)).map
          (env.nbPredict (texts.take (texts.length * 4 / 5))
            ((labels.map label_map).take (texts.length * 4 / 5))))) ∧
    texts.take (texts.length * 4 / 5) ++ texts.drop (texts.length * 4 / 5) = texts := by
  obtain ⟨hmet, htr, hsam, hnbm, hlrm, hcmnb, hcmlr, hv, hnb, hlr, hth⟩ :=
    train_models_ok_spec env s texts labels hist hok
  exact ⟨hnb, hlr, hcmnb, List.take_append_drop _ _⟩

/-- Witness for C5 at a concrete successful 10-sample run. -/
theorem C5_positional_split_witness :
    (train_models envC2 initial_state texts10 labels10).1.nb_model =
      some (ModelObj.trainedOn (texts10.take (texts10.length * 4 / 5))
        ((labels10.map label_map).take (texts10.length * 4 / 5))) ∧
    (train_models envC2 initial_state texts10 labels10).1.lr_model =
      some (ModelObj.trainedOn (texts10.take (texts10.length * 4 / 5))
        ((labels10.map label_map).take (texts10.length * 4 / 5))) ∧
    histC2.cm_nb =
      some (confusion_matrix ((labels10.map label_map).drop (texts10.length * 4 / 5))
        ((texts10.drop (texts10.length * 4 / 5)).map
          (envC2.nbPredict (texts10.take (texts10.length * 4 / 5))
            ((labels10.map label_map).take (texts10.length * 4 / 5))))) ∧
    texts10.take (texts10.length * 4 / 5) ++ texts10.drop (texts10.length * 4 / 5) =
      texts10 :=
  C5_positional_split envC2 initial_state texts10 labels10 histC2 rfl

/-! ## C6 -/

/-- Claim C6: the outcome of `_save_models` plays no role — the whole
run (result and final state) is independent of the save outcome, so a
training run that succeeds with the write failing returns exactly the
`Except.ok` history of the succeeding-write run, with the newly trained
vectorizer and both classifiers still installed in the state.  The store
failure is swallowed inside `_save_models` and never propagated. -/
theorem C6_save_failure_not_propagated (env : MLEnv) (s : AnalyzerState)
    (texts : List String) (labels : List Int) :
    (∀ b₁ b₂ : Bool,
      train_models { env with saveOk := b₁ } s texts labels =
        train_models { env with saveOk := b₂ } s texts labels) ∧
    (∀ hist : TrainingHistory,
      (train_models { env with saveOk := true } s texts labels).2 = Except.ok hist →
      (train_models { env with saveOk := false } s texts labels).2 = Except.ok hist ∧
      hist.trained = true ∧
      (train_models { env with saveOk := false } s texts labels).1.training_history = hist ∧
      (train_models { env with saveOk := false } s texts labels).1.vectorizer =
        some (VectorizerObj.fittedOn texts) ∧
      (train_models { env with saveOk := false } s texts labels).1.nb_model =
        some (ModelObj.trainedOn (texts.take (texts.length * 4 / 5))
          ((labels.map label_map).take (texts.length * 4 / 5))) ∧
      (train_models { env with saveOk := false } s texts labels).1.lr_model =
        some (ModelObj.trainedOn (texts.take (texts.length * 4 / 5))
          ((labels.map label_map).take (texts.length * 4 / 5)))) := by
  have hirrel : ∀ b₁ b₂ : Bool,
      train_models { env with saveOk := b₁ } s texts labels =
        train_models { env with saveOk := b₂ } s texts labels := by
    intro b₁ b₂
    simp [train_models, save_models_id]
  refine ⟨hirrel, ?_⟩
  intro hist hok
  have hok' : (train_models { env with saveOk := false } s texts labels).2 =
      Except.ok hist := by
    rw [hirrel false true]; exact hok
  obtain ⟨hmet, htr, hsam, hnbm, hlrm, hcmnb, hcmlr, hv, hnb, hlr, hth⟩ :=
    train_models_ok_spec { env with saveOk := false } s texts labels hist hok'
  exact ⟨hok', htr, hth, hv, hnb, hlr⟩

/-- Witness for C6 at a concrete run with a failing write. -/
theorem C6_save_failure_not_propagated_witness :
    train_models { envC2 with saveOk := false } initial_state texts10 labels10 =
      train_models { envC2 with saveOk := true } initial_state texts10 labels10 ∧
    ((train_models { envC2 with saveOk := false } initial_state texts10 labels10).2 =
        Except.ok histC2 ∧
      histC2.trained = true ∧
      (train_models { envC2 with saveOk := false } initial_state
        texts10 labels10).1.training_history = histC2 ∧
      (train_models { envC2 with saveOk := false } initial_state
        texts10 labels10).1.vectorizer = some (VectorizerObj.fittedOn texts10) ∧
      (train_models { envC2 with saveOk := false } initial_state
        texts10 labels10).1.nb_model =
        some (ModelObj.trainedOn (texts10.take (texts10.length * 4 / 5))
          ((labels10.map label_map).take (texts10.length * 4 / 5))) ∧
      (train_models { envC2 with saveOk := false } initial_state
        texts10 labels10).1.lr_model =
        some (ModelObj.trainedOn (texts10.take (texts10.length * 4 / 5))
          ((labels10.map label_map).take (texts10.length * 4 / 5)))) :=
  ⟨(C6_save_failure_not_propagated envC2 initial_state texts10 labels10).1 false true,
   (C6_save_failure_not_propagated envC2 initial_state texts10 labels10).2 histC2 rfl⟩

/-! ## C7 -/

/-- Claim C7: on an untrained system (`training_history['trained']` is
false) `analyze` returns a result whose `models` mapping has only the
`pre_trained` key — `naive_bayes` and `logistic_regression` are absent. -/
theorem C7_untrained_only_pre_trained (oai : OpenAIOutcome) (env : InferEnv)
    (s : AnalyzerState) (text ts : String)
    (h : s.training_history.trained = false) :
    (analyze oai env s text ts).models.naive_bayes = none ∧
    (analyze oai env s text ts).models.logistic_regression = none ∧
    ((analyze oai env s text ts).models.pre_trained).isSome = true := by
  refine ⟨?_, ?_, ?_⟩
  · unfold analyze; simp [h]
  · unfold analyze; simp [h]
  · rw [analyze_pre_trained_eq]; rfl

/-- Witness for C7: `analyze("amazing!!")` on the freshly initialised,
untrained state. -/
theorem C7_untrained_only_pre_trained_witness :
    (analyze OpenAIOutcome.noClient inferEnv0 initial_state "amazing!!" "ts").models.naive_bayes = none ∧
    (analyze OpenAIOutcome.noClient inferEnv0 initial_state "amazing!!" "ts").models.logistic_regression = none ∧
    ((analyze OpenAIOutcome.noClient inferEnv0 initial_state "amazing!!" "ts").models.pre_trained).isSome = true :=
  C7_untrained_only_pre_trained OpenAIOutcome.noClient inferEnv0 initial_state
    "amazing!!" "ts" rfl

/-! ## C8 -/

/-- Claim C8: `_load_models` never fails fatally — if the `ml_models`
directory is absent or any of the three pickled artifact files
(vectorizer, Naive Bayes, Logistic Regression) is missing, the state is
left exactly as it was (no error, no partial artifact set), and on the
freshly initialised state the system stays untrained. -/
theorem C8_load_missing_artifacts_noop (fs : FileSys) (s : AnalyzerState)
    (h : fs.dirExists = false ∨ fs.vecExists = false ∨ fs.nbExists = false ∨
      fs.lrExists = false) :
    load_models fs s = s ∧
    (load_models fs initial_state).training_history.trained = false := by
  have hid : ∀ t : AnalyzerState, load_models fs t = t := by
    intro t
    unfold load_models
    rcases h with h | h | h | h <;> simp [h]
  exact ⟨hid s, by rw [hid initial_state]; rfl⟩

/-- Witness for C8 with the storage directory absent. -/
theorem C8_load_missing_artifacts_noop_witness :
    load_models fsNoDir initial_state = initial_state ∧
    (load_models fsNoDir initial_state).training_history.trained = false :=
  C8_load_missing_artifacts_noop fsNoDir initial_state (Or.inl rfl)

/-! ## C9 -/

/-- Claim C9: `analyze_with_ml` is all-or-nothing — it returns the empty
mapping whenever any of vectorizer / Naive Bayes / Logistic Regression is
unset (and also when a scikit-learn call inside the `try` raises, the
`none` branch of the oracle flags), and otherwise a mapping with exactly
the two keys `naive_bayes` and `logistic_regression`, each carrying a
sentiment from `['Negative', 'Neutral', 'Positive']`; it never returns an
entry for only one classifier. -/
theorem C9_ml_all_or_nothing (env : InferEnv) (s : AnalyzerState) (text : String) :
    ((s.vectorizer = none ∨ s.nb_model = none ∨ s.lr_model = none) →
      analyze_with_ml env s text = none) ∧
    (analyze_with_ml env s text = none ∨
      ∃ nbr lrr, analyze_with_ml env s text = some (nbr, lrr) ∧
        nbr.sentiment ∈ class_labels ∧ lrr.sentiment ∈ class_labels) := by
  have hrev : ∀ i : ClassIdx, label_reverse i ∈ class_labels := by decide
  constructor
  · intro h
    cases hv : s.vectorizer with
    | none => simp [analyze_with_ml, hv]
    | some v =>
      cases hn : s.nb_model with
      | none => simp [analyze_with_ml, hv, hn]
      | some nb =>
        cases hl : s.lr_model with
        | none => simp [analyze_with_ml, hv, hn, hl]
        | some lr =>
          rw [hv, hn, hl] at h
          rcases h with h | h | h <;> exact absurd h (by simp)
  · cases hv : s.vectorizer with
    | none => exact Or.inl (by simp [analyze_with_ml, hv])
    | some v =>
      cases hn : s.nb_model with
      | none => exact Or.inl (by simp [analyze_with_ml, hv, hn])
      | some nb =>
        cases hl : s.lr_model with
        | none => exact Or.inl (by simp [analyze_with_ml, hv, hn, hl])
        | some lr =>
          by_cases hok : (env.transformOk v text && env.nbOk nb text && env.lrOk lr text) = true
          · refine Or.inr
              ⟨MLResult.mk (label_reverse (env.nbPredict1 nb text)) (env.nbProba nb text),
               MLResult.mk (label_reverse (env.lrPredict1 lr text)) (env.lrProba lr text),
               ?_, hrev _, hrev _⟩
            simp [analyze_with_ml, hv, hn, hl, hok]
          · refine Or.inl ?_
            simp only [analyze_with_ml, hv, hn, hl]
            rw [if_neg hok]

/-- Witness for C9 on the untrained initial state. -/
theorem C9_ml_all_or_nothing_witness :
    ((initial_state.vectorizer = none ∨ initial_state.nb_model = none ∨
        initial_state.lr_model = none) →
      analyze_with_ml inferEnv0 initial_state "great" = none) ∧
    (analyze_with_ml inferEnv0 initial_state "great" = none ∨
      ∃ nbr lrr, analyze_with_ml inferEnv0 initial_state "great" = some (nbr, lrr) ∧
        nbr.sentiment ∈ class_labels ∧ lrr.sentiment ∈ class_labels) :=
  C9_ml_all_or_nothing inferEnv0 initial_state "great"

/-! ## C10 -/

/-- Claim C10: error recovery after the sample-count check is not atomic.
On ten pairwise-distinct texts whose vectorizer fit raises (empty
vocabulary under `min_df=2`), `train_models` returns the error dict, yet
`self.vectorizer` has already been replaced by the fresh unfitted
`TfidfVectorizer` (the previous value was `None`), while `nb_model`,
`lr_model` and `training_history` keep their previous values. -/
theorem C10_failed_fit_partial_mutation :
    (train_models envFitFail initial_state texts10d labels10d).2 =
      Except.error
        "After pruning, no terms remain. Try a lower min_df or a higher max_df." ∧
    (train_models envFitFail initial_state texts10d labels10d).1 =
      { initial_state with vectorizer := some VectorizerObj.unfitted } ∧
    initial_state.vectorizer ≠ some VectorizerObj.unfitted ∧
    (train_models envFitFail initial_state texts10d labels10d).1.nb_model =
      initial_state.nb_model ∧
    (train_models envFitFail initial_state texts10d labels10d).1.lr_model =
      initial_state.lr_model ∧
    (train_models envFitFail initial_state texts10d labels10d).1.training_history =
      initial_state.training_history :=
  ⟨rfl, rfl, by decide, rfl, rfl, rfl⟩
